import Mathlib

/-!
Verification development for the react-wasm-compiler module-resolution and
bundling core.  The definitions below are a shallow embedding of the two
compiler backends (`SwcRunner` and `EsbuildRunner`), their path/alias
resolution logic, the transpile-only dependency walk and import/export
rewriter, the module-registry bundle they emit, and the sandboxed
execution handoff.  Strings are processed at the character-list level so
that every definition evaluates inside the kernel.
-/

namespace ReactWasm

/- ## Generic helpers (association lists, character classes, string ops) -/

/-- Lookup in an association list by key (first match), mirroring
`Map.get` / JS object property read. -/
def lookupA {α : Type} (m : List (String × α)) (k : String) : Option α :=
  match m with
  | [] => none
  | (k2, v) :: rest => if k2 == k then some v else lookupA rest k

/-- Update in an association list: replace the first binding of the key in
place, else append.  Mirrors `Map.set` / JS object property write, which
keep first-insertion order. -/
def setA {α : Type} (m : List (String × α)) (k : String) (v : α) : List (String × α) :=
  match m with
  | [] => [(k, v)]
  | (k2, v2) :: rest => if k2 == k then (k2, v) :: rest else (k2, v2) :: setA rest k v

/-- Keys of an association list. -/
def keysA {α : Type} (m : List (String × α)) : List String := m.map Prod.fst

/-- Number of occurrences of a string in a list. -/
def countOcc (l : List String) (x : String) : Nat :=
  (l.filter (fun y => y == x)).length

/-- Whitespace class of the JS regex `\s` restricted to the characters that
can appear in the sources handled here. -/
def isWs (c : Char) : Bool :=
  c == ' ' || c == '\t' || c == '\n' || c == '\r' || c == '\x0b' || c == '\x0c'

/-- Quote class of the JS regex character class with the two quote kinds. -/
def isQuote (c : Char) : Bool := c == '\x22' || c == '\x27'

/-- Word-character class of the JS regex `\w` (ASCII letters, digits, underscore). -/
def isWordChar (c : Char) : Bool := c.isAlpha || c.isDigit || c == '_'

/-- Boolean test that `p` is a prefix of `s` (JS `String.startsWith`). -/
def strStarts (s p : String) : Bool := p.toList.isPrefixOf s.toList

/-- Boolean test that `p` is a suffix of `s` (JS `String.endsWith`). -/
def strEnds (s p : String) : Bool := p.toList.reverse.isPrefixOf s.toList.reverse

/-- Drop the first `n` characters (JS `String.slice(n)`). -/
def strDrop (s : String) (n : Nat) : String := String.mk (s.toList.drop n)

/-- Replace the first occurrence of `pat` by `repl` in a character list,
mirroring JS `String.replace` with a string pattern. -/
def replaceFirstL (pat repl : List Char) : List Char → List Char
  | [] => []
  | c :: cs =>
    if pat.isPrefixOf (c :: cs) then repl ++ (c :: cs).drop pat.length
    else c :: replaceFirstL pat repl cs

/-- String wrapper for `replaceFirstL`. -/
def strReplaceFirst (s pat repl : String) : String :=
  String.mk (replaceFirstL pat.toList repl.toList s.toList)

/-- Split a character list on the separator character `/`, mirroring JS
`String.split("/")` (keeps empty segments, `""` splits to one empty segment). -/
def splitSlashL : List Char → List (List Char)
  | [] => [[]]
  | '/' :: rest => [] :: splitSlashL rest
  | c :: rest =>
    match splitSlashL rest with
    | g :: gs => (c :: g) :: gs
    | [] => [[c]]

/-- String wrapper for `splitSlashL`. -/
def splitSlash (s : String) : List String := (splitSlashL s.toList).map String.mk

/-- Join path segments with `/` (JS `Array.join("/")`). -/
def joinSlash (l : List String) : String :=
  String.mk (List.intercalate ['/'] (l.map String.toList))

/- ## Path and alias resolution (from the source) -/

/-- Alias resolution as performed identically inside each import-rewrite
callback of `SwcRunner.resolveImports` (src/unnamed/part_000 lines 149-157,
169-177, 189-197): an `@/`-rooted specifier becomes `/src/` plus the rest,
with `.js` appended unless the path already ends in `.js` or `.jsx`;
any other specifier is returned unchanged. -/
def resolveAliasPath (importPath : String) : String :=
  if strStarts importPath "@/" then
    let p := "/src/" ++ strDrop importPath 2
    if !(strEnds p ".js") && !(strEnds p ".jsx") then p ++ ".js" else p
  else importPath

/-- Module-map key computation of `SwcRunner.compile` (lines 271-277 for the
entry point and 282-285 for dependencies): `/src/` plus the specifier with its
first `@/` removed, with the same extension-appending rule. -/
def moduleKey (path : String) : String :=
  let p := "/src/" ++ strReplaceFirst path "@/" ""
  if !(strEnds p ".js") && !(strEnds p ".jsx") then p ++ ".js" else p

/-- One step of `EsbuildRunner.normalizePath`'s segment loop (lines 532-538):
`..` pops the last collected segment (a pop on an empty collection is a
no-op, as JS `Array.pop`), `.` and empty segments are skipped, anything else
is pushed. -/
def normStep (acc : List String) (part : String) : List String :=
  if part == ".." then acc.dropLast
  else if part != "." && part != "" then acc ++ [part]
  else acc

/-- Segment normalization: fold `normStep` over the segments. -/
def normSegs (parts : List String) : List String := parts.foldl normStep []

/-- Strip one leading `@/` (the JS `.replace(/^@\//, "")` of line 541). -/
def stripLeadingAlias (s : String) : String :=
  if strStarts s "@/" then strDrop s 2 else s

/-- `EsbuildRunner.normalizePath` (lines 528-545). -/
def normalizePath (path : String) : String :=
  let result := normSegs (splitSlash path)
  if strStarts path "@/" then "@/" ++ stripLeadingAlias (joinSlash result)
  else "/" ++ joinSlash result

/-- Importer directory as computed in the resolve hook (lines 574-577):
JS `importer.substring(0, importer.lastIndexOf("/"))`, which is the empty
string when the importer has no slash. -/
def importerDir (importer : String) : String :=
  String.mk ((((importer.toList.reverse).dropWhile (fun c => c != '/')).drop 1).reverse)

/-- Relative resolution of the resolve hook (line 578):
normalize `importerDir ++ "/" ++ specifier`. -/
def resolveRelative (importer specifier : String) : String :=
  normalizePath (importerDir importer ++ "/" ++ specifier)

/-- External package allowlist (lines 47-52 and 516-521). -/
def externalsList : List String :=
  ["react", "react-dom", "react/jsx-runtime", "react-dom/client"]

/-- `isExternal` of both runners (lines 46-54 and 515-523). -/
def isExternal (path : String) : Bool :=
  externalsList.any (fun e => path == e || strStarts path (e ++ "/"))

/-- Result of the esbuild resolve hook. -/
inductive ResolveResult where
  | external (path : String)
  | virt (path : String)
  | unresolved
deriving DecidableEq

/-- The `onResolve` callback of `EsbuildRunner.createVirtualFsPlugin`
(lines 555-589): externals are delegated to the import map, `@/` paths go to
the virtual namespace unchanged, relative paths from virtual files are
resolved against the importer directory, remaining bare specifiers are
external, anything else falls through to the engine. -/
def onResolve (path ns importer : String) : ResolveResult :=
  if isExternal path then .external path
  else if strStarts path "@/" then .virt path
  else if ns == "virtual" && (strStarts path "./" || strStarts path "../") then
    .virt (resolveRelative importer path)
  else if !(strStarts path "/") && !(strStarts path ".") then .external path
  else .unresolved

/- ## Source provider (modelled from the spec) -/

/-- Candidate extension list of the spec's PathResolver rule 5. -/
def candidateExts : List String := [".tsx", ".ts", ".jsx", ".js"]

/-- Last path segment of a path string. -/
def lastSegment (p : String) : String := (splitSlash p).getLastD ""

/-- Whether the last segment of a path carries an extension (contains a dot). -/
def hasExtensionDot (p : String) : Bool := (lastSegment p).toList.contains '.'

/-- Modelled from the spec: `fetchSourceFile` of `file-loader.js` is not under
`src/`; per spec sections 4.1 (rule 5) and 6, it maps an alias path under the
base url, appends a default extension only if the path has none by consulting
the ordered candidate list (first existing source wins), and fails when no
candidate exists.  `files` is the dev server's raw file table; the result is
the canonical file actually read together with its contents. -/
def fetchSourceFile (files : String → Option String) (path baseUrl : String) :
    Option (String × String) :=
  let base := if strStarts path "@/" then baseUrl ++ "/" ++ strDrop path 2 else path
  if hasExtensionDot base then (files base).map (fun c => (base, c))
  else candidateExts.findSome? (fun ext => (files (base ++ ext)).map (fun c => (base ++ ext, c)))

/-- Definition following the spec's words, for comparison with the source's
alias resolver: resolve an `@/` specifier under `baseUrl` and infer the
extension as the first candidate for which a source exists. -/
def specResolveAliasPath (files : String → Option String) (specifier baseUrl : String) :
    Option String :=
  if strStarts specifier "@/" then
    let base := baseUrl ++ "/" ++ strDrop specifier 2
    if hasExtensionDot base then some base
    else candidateExts.findSome?
      (fun ext => if (files (base ++ ext)).isSome then some (base ++ ext) else none)
  else none

/-- Definition following the spec's words, for comparison with the source's
relative resolver: collapse `..` positionally and reject with a resolution
error (`none`) when the `..` segments collapse past the root. -/
def specResolveRelative (importer specifier : String) : Option String :=
  let parts := splitSlash (importerDir importer ++ "/" ++ specifier)
  let step : Option (List String) → String → Option (List String) := fun acc part =>
    match acc with
    | none => none
    | some segs =>
      if part == ".." then (if segs.isEmpty then none else some segs.dropLast)
      else if part != "." && part != "" then some (segs ++ [part])
      else some segs
  (parts.foldl step (some [])).map (fun segs => "/" ++ joinSlash segs)

/- ## Sandbox capability model -/

/-- DOMTokenList `add`: appends the token unless already present. -/
def tokenAdd (l : List String) (t : String) : List String :=
  if t ∈ l then l else l ++ [t]

/-- Sandbox tokens granted by `SwcRunner.compileAndRun` (lines 444-446):
three unconditional `iframe.sandbox.add` calls on a fresh iframe. -/
def swcSandbox : List String :=
  tokenAdd (tokenAdd (tokenAdd [] "allow-scripts") "allow-popups") "allow-forms"

/-- Sandbox tokens granted by `EsbuildRunner.compileAndRun` (lines 751-753). -/
def esbuildSandbox : List String :=
  tokenAdd (tokenAdd (tokenAdd [] "allow-scripts") "allow-popups") "allow-forms"

/- ## Module-level engine state (initialization) -/

/-- Module-level engine flag shared by all instances of one runner class
(`let initialized = false` at lines 9-10 and 476-477 of the two runner
modules). -/
structure EngineGlobal where
  ready : Bool
deriving DecidableEq

/-- `SwcRunner.initialize` (lines 25-41): reads and writes only the
module-level flag; the instance (`_inst`) plays no role.  Returns the new
module state, whether an engine load was performed, and whether the call
succeeded.  `loadOk` abstracts the dynamic import of the wasm engine. -/
def swcInit (_inst : Nat) (loadOk : Bool) (g : EngineGlobal) :
    EngineGlobal × Bool × Bool :=
  if g.ready then (g, false, true)
  else if loadOk then ({ ready := true }, true, true)
  else (g, true, false)

/-- `EsbuildRunner.initialize` (lines 491-510), same shape as `swcInit`
against its own module-level flag. -/
def esbuildInit (_inst : Nat) (loadOk : Bool) (g : EngineGlobal) :
    EngineGlobal × Bool × Bool :=
  if g.ready then (g, false, true)
  else if loadOk then ({ ready := true }, true, true)
  else (g, true, false)

/-- The not-initialized guard at the top of `SwcRunner.compile`
(lines 240-242) and `EsbuildRunner.compile` (lines 633-637): compiling is
allowed exactly when the module-level flag is set. -/
def compileGuardOk (_inst : Nat) (g : EngineGlobal) : Bool := g.ready

/- ## Regex matchers for the import scanner and the import/export rewriter

Each JS regex of `SwcRunner` is embedded as a deterministic matcher over a
character list; every character class in these patterns is disjoint from what
must follow it, so greedy matching without backtracking coincides with the JS
semantics.  A global `replace` is a left-to-right scan that, at each position,
either applies the matcher and continues after the match or moves one
character forward. -/

/-- Drop a run of whitespace (the tail of a greedy `\s+`, or a whole `\s*`). -/
def dropWs (cs : List Char) : List Char := cs.dropWhile isWs

/-- Match `\s+`: at least one whitespace character, greedily. -/
def ws1 (cs : List Char) : Option (List Char) :=
  match cs with
  | c :: rest => if isWs c then some (dropWs rest) else none
  | [] => none

/-- Match a literal string. -/
def lit (p : String) (cs : List Char) : Option (List Char) :=
  if p.toList.isPrefixOf cs then some (cs.drop p.toList.length) else none

/-- Match `\w+` greedily, returning the captured word. -/
def word1 (cs : List Char) : Option (List Char × List Char) :=
  let w := cs.takeWhile isWordChar
  if w.isEmpty then none else some (w, cs.dropWhile isWordChar)

/-- Match `["']([^"']+)["']`, returning the captured body. -/
def quoted (cs : List Char) : Option (List Char × List Char) :=
  match cs with
  | q :: rest =>
    if isQuote q then
      let body := rest.takeWhile (fun c => !(isQuote c))
      match rest.dropWhile (fun c => !(isQuote c)) with
      | q2 :: rest2 => if isQuote q2 && !body.isEmpty then some (body, rest2) else none
      | [] => none
    else none
  | [] => none

/-- Generic global replace with fuel (one unit per scanned position; the
initial fuel is the input length, which bounds the number of steps). -/
def replaceScan (m : List Char → Option (List Char × List Char)) :
    Nat → List Char → List Char
  | 0, cs => cs
  | _ + 1, [] => []
  | fuel + 1, c :: cs =>
    match m (c :: cs) with
    | some (repl, rest) => repl ++ replaceScan m fuel rest
    | none => c :: replaceScan m fuel cs

/-- Run one global-replace pass over a string. -/
def runPass (m : List Char → Option (List Char × List Char)) (s : String) : String :=
  String.mk (replaceScan m s.toList.length s.toList)

/-- Matcher for `\s+as\s+` (the `names.replace(/\s+as\s+/g, ": ")` of
lines 160, 180), replaced by `: `. -/
def asSepM (cs : List Char) : Option (List Char × List Char) := do
  let r ← ws1 cs
  let r ← lit "as" r
  let r ← ws1 r
  some (": ".toList, r)

/-- The `X as Y` to `X: Y` conversion applied to an import clause. -/
def convertAsNames (names : List Char) : List Char :=
  replaceScan asSepM names.length names

/-- Alias resolution lifted to character lists. -/
def aliasResolveL (p : List Char) : List Char := (resolveAliasPath (String.mk p)).toList

/-- Matcher for the combined-import regex of lines 146-163:
`import\s+(\w+)\s*,\s*\{([^}]+)\}\s+from\s+["']([^"']+)["']`, replaced by
`const D = require("R");\nconst \x7b N \x7d = D`. -/
def combinedImportM (cs : List Char) : Option (List Char × List Char) := do
  let r ← lit "import" cs
  let r ← ws1 r
  let (d, r) ← word1 r
  let r := dropWs r
  let r ← lit "," r
  let r := dropWs r
  let r ← lit "\x7b" r
  let names := r.takeWhile (fun c => c != '\x7d')
  if names.isEmpty then none else do
  let r ← lit "\x7d" (r.dropWhile (fun c => c != '\x7d'))
  let r ← ws1 r
  let r ← lit "from" r
  let r ← ws1 r
  let (p, r) ← quoted r
  some ("const ".toList ++ d ++ " = require(\x22".toList ++ aliasResolveL p
        ++ "\x22);\nconst \x7b ".toList ++ convertAsNames names
        ++ " \x7d = ".toList ++ d, r)

/-- Matcher for the named-import regex of lines 166-183:
`import\s+\{([^}]+)\}\s+from\s+["']([^"']+)["']`, replaced by
`const \x7b N \x7d = require("R")`. -/
def namedImportM (cs : List Char) : Option (List Char × List Char) := do
  let r ← lit "import" cs
  let r ← ws1 r
  let r ← lit "\x7b" r
  let names := r.takeWhile (fun c => c != '\x7d')
  if names.isEmpty then none else do
  let r ← lit "\x7d" (r.dropWhile (fun c => c != '\x7d'))
  let r ← ws1 r
  let r ← lit "from" r
  let r ← ws1 r
  let (p, r) ← quoted r
  some ("const \x7b ".toList ++ convertAsNames names ++ " \x7d = require(\x22".toList
        ++ aliasResolveL p ++ "\x22)".toList, r)

/-- Matcher for the default-import regex of lines 186-201:
`import\s+(\w+)\s+from\s+["']([^"']+)["']`, replaced by
`const V = require("R")`. -/
def defaultImportM (cs : List Char) : Option (List Char × List Char) := do
  let r ← lit "import" cs
  let r ← ws1 r
  let (v, r) ← word1 r
  let r ← ws1 r
  let r ← lit "from" r
  let r ← ws1 r
  let (p, r) ← quoted r
  some ("const ".toList ++ v ++ " = require(\x22".toList ++ aliasResolveL p
        ++ "\x22)".toList, r)

/-- Matcher for the side-effect-import regex of line 204:
`import\s+["']([^"']+)["']`, replaced by `require("$1")` (no alias
resolution in the source here). -/
def sideEffectImportM (cs : List Char) : Option (List Char × List Char) := do
  let r ← lit "import" cs
  let r ← ws1 r
  let (p, r) ← quoted r
  some ("require(\x22".toList ++ p ++ "\x22)".toList, r)

/-- Matcher for the export-const regex of line 207:
`export\s+const\s+(\w+)\s*=`, replaced by `exports.$1 = `. -/
def exportConstM (cs : List Char) : Option (List Char × List Char) := do
  let r ← lit "export" cs
  let r ← ws1 r
  let r ← lit "const" r
  let r ← ws1 r
  let (n, r) ← word1 r
  let r := dropWs r
  let r ← lit "=" r
  some ("exports.".toList ++ n ++ " = ".toList, r)

/-- Matcher for the export-function regex of lines 208-211:
`export\s+function\s+(\w+)\s*\(`, replaced by `exports.$1 = function (`. -/
def exportFunM (cs : List Char) : Option (List Char × List Char) := do
  let r ← lit "export" cs
  let r ← ws1 r
  let r ← lit "function" r
  let r ← ws1 r
  let (n, r) ← word1 r
  let r := dropWs r
  let r ← lit "(" r
  some ("exports.".toList ++ n ++ " = function (".toList, r)

/-- Matcher for the export-default regex of line 212:
`export\s+default\s+`, replaced by `exports.default = `. -/
def exportDefaultM (cs : List Char) : Option (List Char × List Char) := do
  let r ← lit "export" cs
  let r ← ws1 r
  let r ← lit "default" r
  let r ← ws1 r
  some ("exports.default = ".toList, r)

/-- `SwcRunner.resolveImports` (lines 142-215): the seven global replace
passes applied in source order.  The `filePath` parameter is received but
never consulted by any pass, exactly as in the source. -/
def resolveImports (code : String) (_filePath : String) : String :=
  let c := runPass combinedImportM code
  let c := runPass namedImportM c
  let c := runPass defaultImportM c
  let c := runPass sideEffectImportM c
  let c := runPass exportConstM c
  let c := runPass exportFunM c
  runPass exportDefaultM c

/- ## Import discovery -/

/-- Matcher for the discovery regex of `SwcRunner.extractImports`
(line 129): `from\s+["'](@\/[^"']+)["']`; the captured group includes the
`@/` prefix. -/
def fromImportM (cs : List Char) : Option (List Char × List Char) := do
  let r ← lit "from" cs
  let r ← ws1 r
  match r with
  | q :: '@' :: '/' :: rest =>
    if isQuote q then
      let body := rest.takeWhile (fun c => !(isQuote c))
      match rest.dropWhile (fun c => !(isQuote c)) with
      | q2 :: rest2 =>
        if isQuote q2 && !body.isEmpty then some ('@' :: '/' :: body, rest2) else none
      | [] => none
    else none
  | _ => none

/-- Scan for every match of the discovery regex, left to right. -/
def scanImportsAux : Nat → List Char → List String
  | 0, _ => []
  | _ + 1, [] => []
  | fuel + 1, c :: cs =>
    match fromImportM (c :: cs) with
    | some (grp, rest) => String.mk grp :: scanImportsAux fuel rest
    | none => scanImportsAux fuel cs

/-- Deduplication keeping the first occurrence (JS `[...new Set(xs)]`). -/
def dedupFirstAux (seen : List String) : List String → List String
  | [] => []
  | x :: xs =>
    if x ∈ seen then dedupFirstAux seen xs
    else x :: dedupFirstAux (x :: seen) xs

/-- `SwcRunner.extractImports` (lines 127-137). -/
def extractImports (code : String) : List String :=
  dedupFirstAux [] (scanImportsAux code.toList.length code.toList)

/- ## The transpile-only compile pipeline (SwcRunner) -/

/-- Environment of one `SwcRunner` compile: the dev server's raw file table
(consulted through the spec-modelled `fetchSourceFile`) and the outcome of
the engine's `transformSync` on given contents and filename (`none` models a
thrown transform error). -/
structure SwcEnv where
  files : String → Option String
  tf : String → String → Option String

/-- Mutable state of a `SwcRunner` instance plus the observable effect log:
`transformedFiles` and `fileCache` are the two instance caches (lines 18-19),
both keyed by the module path as written (the specifier); `fetchCalls`
records every `fetchSourceFile` invocation by requested path; `fetchedFiles`
records every canonical file successfully read; `warnings` records the
dependency warnings of `transformDependencies`. -/
structure SwcState where
  transformedFiles : List (String × String)
  fileCache : List (String × String)
  fetchCalls : List String
  fetchedFiles : List String
  warnings : List String
deriving DecidableEq

/-- The empty initial state of a fresh `SwcRunner`. -/
def initialSwcState : SwcState :=
  { transformedFiles := [], fileCache := [], fetchCalls := [], fetchedFiles := [],
    warnings := [] }

/-- `SwcRunner.loadAndTransformFile` (lines 92-112): answer from the
transformed-module cache when present; otherwise fetch, transform, populate
both caches.  A fetch or transform failure is propagated (`none`), with any
state changes made before the failure kept. -/
def loadAndTransformFile (env : SwcEnv) (st : SwcState) (modulePath baseUrl : String) :
    SwcState × Option String :=
  match lookupA st.transformedFiles modulePath with
  | some t => (st, some t)
  | none =>
    let st1 := { st with fetchCalls := st.fetchCalls ++ [modulePath] }
    match fetchSourceFile env.files modulePath baseUrl with
    | none => (st1, none)
    | some (canon, contents) =>
      let st2 := { st1 with fetchedFiles := st1.fetchedFiles ++ [canon] }
      match env.tf contents modulePath with
      | none => (st2, none)
      | some code =>
        ({ st2 with
            transformedFiles := setA st2.transformedFiles modulePath code,
            fileCache := setA st2.fileCache modulePath contents }, some code)

/-- One iteration of the dependency loop of `SwcRunner.transformDependencies`
(lines 223-233): try to load and transform the discovered specifier; a
failure is caught and recorded as a warning (the source logs
`[swc] Could not transform dependency <path>`), and the dependency is
skipped. -/
def depStep (env : SwcEnv) (baseUrl : String) (s : SwcState) (imp : String) : SwcState :=
  match loadAndTransformFile env s imp baseUrl with
  | (s1, some _) => s1
  | (s1, none) =>
    { s1 with warnings := s1.warnings ++ ["Could not transform dependency " ++ imp] }

/-- `SwcRunner.transformDependencies` (lines 220-234): run `depStep` over
every specifier discovered in the given code. -/
def transformDependencies (env : SwcEnv) (st : SwcState) (code baseUrl : String) :
    SwcState :=
  (extractImports code).foldl (depStep env baseUrl) st

/-- Build result of `SwcRunner.compile` (lines 294-299), without the constant
empty `warnings` array. -/
structure SwcBuild where
  code : String
  moduleMap : List (String × String)
  entryKey : String
deriving DecidableEq

/-- `SwcRunner.compile` (lines 239-304), after the initialization guard:
optionally clear both caches, transform the entry (a failure aborts the
compile), run the one-level dependency walk, rewrite every cached module and
key the module map by resolved path (the entry first, then every cached
module, later writes overwriting). -/
def swcCompile (env : SwcEnv) (st0 : SwcState) (entryPoint baseUrl : String)
    (clearCache : Bool) : SwcState × Option SwcBuild :=
  let st := if clearCache then { st0 with transformedFiles := [], fileCache := [] } else st0
  match loadAndTransformFile env st entryPoint baseUrl with
  | (st1, none) => (st1, none)
  | (st1, some transformed0) =>
    let st2 := transformDependencies env st1 transformed0 baseUrl
    let transformed := resolveImports transformed0 entryPoint
    let entryKey := moduleKey entryPoint
    let mm :=
      st2.transformedFiles.foldl
        (fun m pc => setA m (moduleKey pc.1) (resolveImports pc.2 pc.1))
        (setA [] entryKey transformed)
    (st2, some { code := transformed, moduleMap := mm, entryKey := entryKey })

/- ## The emitted bundle of `SwcRunner.compileAndRun` -/

/-- The fixed registry preamble pushed at lines 326-340 (literal
transcription; braces and apostrophes written as character escapes). -/
def bundlePrefixLines : List String :=
  [ "// SWC Module Bundle",
    "const __modules__ = \x7b\x7d;",
    "const __cache__ = \x7b\x7d;",
    "",
    "function __require__(path) \x7b",
    "  if (__cache__[path]) return __cache__[path];",
    "  const module = \x7b exports: \x7b\x7d \x7d;",
    "  const fn = __modules__[path];",
    "  if (!fn) throw new Error(\x22Module not found: \x22 + path);",
    "  fn(module, module.exports, __require__);",
    "  __cache__[path] = module.exports;",
    "  return module.exports;",
    "\x7d" ]

/-- The four lines pushed for one registered module (lines 343-351). -/
def moduleLines (pc : String × String) : List String :=
  [ "__modules__[\x27" ++ pc.1 ++ "\x27] = function(module, exports, require) \x7b",
    pc.2,
    "\x7d;",
    "" ]

/-- The fixed preload-and-execute tail pushed at lines 353-391 (literal
transcription). -/
def bundleSuffixLines (entryKey : String) : List String :=
  [ "",
    "// Preload external packages from import map",
    "const externalPackages = [",
    "  \x27react\x27,",
    "  \x27react/jsx-runtime\x27,",
    "  \x27react-dom\x27,",
    "  \x27react-dom/client\x27",
    "];",
    "",
    "// Load external packages into cache before executing modules",
    "Promise.all(externalPackages.map(pkg =>",
    "  import(pkg).then(m => \x7b",
    "    __cache__[pkg] = m;",
    "    console.log(`[swc] Preloaded: $\x7bpkg\x7d`);",
    "  \x7d)",
    ")).then(() => \x7b",
    "  // Execute entry point",
    "  try \x7b",
    "    __require__(\x27" ++ entryKey ++ "\x27);",
    "    console.log(\x27[swc] App executed successfully\x27);",
    "  \x7d catch(err) \x7b",
    "    console.error(\x27[swc] Execution error:\x27, err);",
    "    document.getElementById(\x27root\x27).innerHTML = \x27<pre style=\x22color:red\x22>\x27 + err.message + \x27</pre>\x27;",
    "  \x7d",
    "\x7d).catch(err => \x7b",
    "  console.error(\x27[swc] Failed to preload packages:\x27, err);",
    "  document.getElementById(\x27root\x27).innerHTML = \x27<pre style=\x22color:red\x22>Failed to load dependencies: \x27 + err.message + \x27</pre>\x27;",
    "\x7d);" ]

/-- The module-registration section of the emitted bundle: the four lines of
`moduleLines` for each module of the module map, in order. -/
def modulesSection (mm : List (String × String)) : List String :=
  mm.foldr (fun pc acc => moduleLines pc ++ acc) []

/-- The complete `bundledCodeLines` array built by `SwcRunner.compileAndRun`
(lines 326-392): preamble, four lines per module of the module map, then the
preload-and-execute tail. -/
def bundledCodeLines (mm : List (String × String)) (entryKey : String) : List String :=
  bundlePrefixLines ++ modulesSection mm ++ bundleSuffixLines entryKey

/-- The `externalPackages` array of the emitted script (lines 356-361), in
emitted order. -/
def externalsListForBundle : List String :=
  ["react", "react/jsx-runtime", "react-dom", "react-dom/client"]

/-- The error markup written into the iframe's root element when the entry
throws (line 381). -/
def execErrorHtml : String :=
  "<pre style=\x22color:red\x22>execution error message</pre>"

/-- The error markup written into the iframe's root element when a preload
fails (line 389). -/
def preloadErrorHtml : String :=
  "<pre style=\x22color:red\x22>Failed to load dependencies</pre>"

/-- Observable events of one run of the emitted bundle script inside the
iframe. -/
inductive BundleEvent where
  | preloaded (pkg : String)
  | invokedEntry (entryKey : String)
  | renderedError (intoRoot : String)
deriving DecidableEq

/-- Operational model of the preload-and-execute tail (lines 366-391) under
the standard settled-promise semantics of `Promise.all(...).then(...)`
`.catch(...)`: when every external import succeeds, all preloads are cached
and only then is the entry factory invoked inside a try/catch whose handler
writes the error into the iframe's root element; when any import fails, the
then-handler never runs and the catch-handler writes the failure into the
root element.  `importOk` is the outcome of `import(pkg)` and `entryOk` the
outcome of `__require__(entryKey)`. -/
def runEmittedBundle (importOk : String → Bool) (entryOk : Bool) (entryKey : String) :
    List BundleEvent :=
  if externalsListForBundle.all importOk then
    (externalsListForBundle.map .preloaded) ++
      (if entryOk then [.invokedEntry entryKey]
       else [.invokedEntry entryKey, .renderedError execErrorHtml])
  else
    ((externalsListForBundle.filter importOk).map .preloaded) ++
      [.renderedError preloadErrorHtml]

/- ## Semantics of the rewritten module fragment

The rewriter emits statements of exactly four shapes: `const X = require("P")`,
`const \x7b B: C, ... \x7d = X`, `exports.K = <expr>` and `require("P")`.  To
state what the rewritten code *means*, those emitted strings are parsed back
into a tiny statement language and evaluated against an ambient module
resolver; module factories of the emitted registry are then executed with the
`__require__` semantics of the preamble (lines 331-339). -/

/-- Values of the mini semantics: module namespace objects, and opaque values
described by the source text of an arbitrary JS expression. -/
inductive JVal where
  | obj (fields : List (String × JVal))
  | code (src : String)

/-- Property read on a value. -/
def getField : JVal → String → Option JVal
  | .obj fs, k => lookupA fs k
  | .code _, _ => none

/-- Statements of the emitted fragment. -/
inductive JStmt where
  | constRequire (name : String) (path : String)
  | constDestr (binds : List (String × String)) (src : String)
  | exportsAssign (key : String) (expr : String)
  | requireOnly (path : String)
deriving DecidableEq

/-- Trim surrounding whitespace. -/
def trimWs (cs : List Char) : List Char :=
  ((cs.dropWhile isWs).reverse.dropWhile isWs).reverse

/-- Split a character list on one separator character. -/
def splitCharL (sep : Char) : List Char → List (List Char)
  | [] => [[]]
  | c :: rest =>
    if c == sep then [] :: splitCharL sep rest
    else
      match splitCharL sep rest with
      | g :: gs => (c :: g) :: gs
      | [] => [[c]]

/-- Parse one destructuring binder: `B` binds field `B` to local `B`;
`B: C` binds field `B` to local `C`. -/
def parseBind (seg : List Char) : String × String :=
  match splitCharL ':' seg with
  | [f] => (String.mk (trimWs f), String.mk (trimWs f))
  | f :: l :: _ => (String.mk (trimWs f), String.mk (trimWs l))
  | [] => ("", "")

/-- Parse one emitted statement. -/
def parseStmtL (cs : List Char) : Option JStmt :=
  match lit "const \x7b" cs with
  | some r =>
    let body := r.takeWhile (fun c => c != '\x7d')
    (do
      let r2 ← lit "\x7d = " (r.dropWhile (fun c => c != '\x7d'))
      let (src, r3) ← word1 (trimWs r2)
      if r3.isEmpty then
        some (JStmt.constDestr ((splitCharL ',' body).map parseBind) (String.mk src))
      else none)
  | none =>
  match lit "const " cs with
  | some r => do
    let (x, r2) ← word1 r
    let r3 ← lit " = require(\x22" r2
    let p := r3.takeWhile (fun c => c != '\x22')
    let r4 ← lit "\x22)" (r3.dropWhile (fun c => c != '\x22'))
    if r4.isEmpty then some (JStmt.constRequire (String.mk x) (String.mk p)) else none
  | none =>
  match lit "exports." cs with
  | some r => do
    let (k, r2) ← word1 r
    let r3 ← lit " = " r2
    some (JStmt.exportsAssign (String.mk k) (String.mk r3))
  | none =>
  match lit "require(\x22" cs with
  | some r => do
    let p := r.takeWhile (fun c => c != '\x22')
    let r2 ← lit "\x22)" (r.dropWhile (fun c => c != '\x22'))
    if r2.isEmpty then some (JStmt.requireOnly (String.mk p)) else none
  | none => none

/-- Split emitted code on the `;`-newline statement separator used by the
rewriter. -/
def splitStmtsL : List Char → List (List Char)
  | [] => [[]]
  | ';' :: '\n' :: rest => [] :: splitStmtsL rest
  | c :: rest =>
    match splitStmtsL rest with
    | g :: gs => (c :: g) :: gs
    | [] => [[c]]

/-- Parse an emitted code fragment into statements. -/
def parseStmts (code : String) : Option (List JStmt) :=
  (splitStmtsL code.toList).mapM parseStmtL

/-- Evaluation context of one factory run: local `const` bindings and the
`exports` object under construction. -/
structure JCtx where
  locals : List (String × JVal)
  exports : List (String × JVal)

/-- Evaluate one statement against an ambient module resolver `req`. -/
def evalStmt (req : String → JVal) (ctx : JCtx) : JStmt → Option JCtx
  | .constRequire x p => some { ctx with locals := setA ctx.locals x (req p) }
  | .constDestr binds src => do
    let v ← lookupA ctx.locals src
    binds.foldlM
      (fun c fl => do
        let fv ← getField v fl.1
        pure { c with locals := setA c.locals fl.2 fv }) ctx
  | .exportsAssign k e => some { ctx with exports := setA ctx.exports k (.code e) }
  | .requireOnly _ => some ctx

/-- Evaluate a statement list in order. -/
def evalStmts (req : String → JVal) : List JStmt → JCtx → Option JCtx
  | [], ctx => some ctx
  | s :: rest, ctx => do
    let ctx2 ← evalStmt req ctx s
    evalStmts req rest ctx2

/-- Run a registered factory: parse its code and evaluate it from an empty
context, returning the populated exports object. -/
def runFactory (req : String → JVal) (code : String) : Option (List (String × JVal)) := do
  let stmts ← parseStmts code
  let ctx ← evalStmts req stmts { locals := [], exports := [] }
  pure ctx.exports

/-- One step of the `__require__` resolver of the emitted preamble
(lines 331-339): answer from the result cache, else run the registered
factory (an unregistered path is a module-not-found failure), memoizing its
exports object.  Requires issued by the factory itself are answered by the
ambient resolver `req`. -/
def requireSem (modules : List (String × String)) (req : String → JVal)
    (cache : List (String × JVal)) (path : String) :
    Option (List (String × JVal) × JVal) :=
  match lookupA cache path with
  | some v => some (cache, v)
  | none =>
    match lookupA modules path with
    | none => none
    | some code => do
      let exps ← runFactory req code
      pure (setA cache path (JVal.obj exps), JVal.obj exps)

/- ## Concrete scenarios used by individual claims -/

/-- Resolution of an alias specifier as seen from an importer: the rewrite
callbacks of `SwcRunner.resolveImports` receive the importing file's path
but never consult it, so the importer argument is ignored, exactly as in the
source. -/
def swcResolveFrom (specifier _importer : String) : String := resolveAliasPath specifier

/-- Cache eviction of `SwcRunner.compile` lines 250-253. -/
def clearedCaches (st : SwcState) : SwcState :=
  { st with transformedFiles := [], fileCache := [] }

/-- File table for the transitive-closure scenario: the entry imports `@/a`,
`@/a` imports `@/b`. -/
def filesC2 : String → Option String := fun p =>
  if p == "/src/entry.js" then some "import \x7b A \x7d from \x22@/a\x22"
  else if p == "/src/a.js" then some "import \x7b B \x7d from \x22@/b\x22"
  else if p == "/src/b.js" then some "export const B = 1"
  else none

/-- Environment for the transitive-closure scenario (the transform is the
identity, which preserves import statements as the es6-module SWC output
does). -/
def envC2 : SwcEnv := { files := filesC2, tf := fun c _ => some c }

/-- File table for the dependency-failure scenario: the entry imports
`@/bad`, which does not exist. -/
def filesC3 : String → Option String := fun p =>
  if p == "/src/entry.js" then some "import \x7b A \x7d from \x22@/bad\x22"
  else none

/-- Environment for the dependency-failure scenario. -/
def envC3 : SwcEnv := { files := filesC3, tf := fun c _ => some c }

/-- File table for the extension-inference scenario: only
`/src/components/ui/button.tsx` exists. -/
def filesC5 : String → Option String := fun p =>
  if p == "/src/components/ui/button.tsx" then some "export function Button()\x7b\x7d"
  else none

/-- File table for the relative-resolution scenario: only
`/src/components/x.tsx` exists. -/
def filesC6 : String → Option String := fun p =>
  if p == "/src/components/x.tsx" then some "export const x = 1"
  else none

/-- File table for the dedup scenario: the entry imports both `@/x` and
`@/x.js`, two specifiers for the same canonical file `/src/x.js`. -/
def filesC8 : String → Option String := fun p =>
  if p == "/src/entry.js" then
    some "import \x7b A \x7d from \x22@/x\x22\nimport \x7b B \x7d from \x22@/x.js\x22"
  else if p == "/src/x.js" then some "export const A = 1"
  else none

/-- Environment for the dedup scenario. -/
def envC8 : SwcEnv := { files := filesC8, tf := fun c _ => some c }

/-- File table for the recompile scenario: the entry imports `@/missing`,
which does not exist. -/
def filesC9 : String → Option String := fun p =>
  if p == "/src/entry.js" then some "import \x7b A \x7d from \x22@/missing\x22"
  else none

/-- Environment for the recompile scenario. -/
def envC9 : SwcEnv := { files := filesC9, tf := fun c _ => some c }

/-- State after the first compile of the recompile scenario. -/
def st1C9 : SwcState := (swcCompile envC9 initialSwcState "@/entry" "/src" false).1

/-- File table for the fetch-free recompile scenario: a single entry with no
imports. -/
def filesC9b : String → Option String := fun p =>
  if p == "/src/entry.js" then some "export const A = 1" else none

/-- Environment for the fetch-free recompile scenario. -/
def envC9b : SwcEnv := { files := filesC9b, tf := fun c _ => some c }

/-- State after the first compile of the fetch-free recompile scenario. -/
def stC9b : SwcState := (swcCompile envC9b initialSwcState "@/entry" "/src" false).1

/-- The combined default-and-named import statement of the rewrite claim. -/
def c7ImportInput : String := "import A, \x7b B as C \x7d from \x22@/x\x22"

/-- The default-export statement of the rewrite claim. -/
def c7ExportInput : String := "export default function Foo()\x7b\x7d"

/- ## The bundling backend's load hook and per-instance cache (EsbuildRunner) -/

/-- Mutable state of an `EsbuildRunner` instance plus the observable effect
log: `fileCache` is the instance's SourceRecord cache (line 485), keyed by
the virtual module path as requested by the engine; `fetchCalls` records
every `fetchSourceFile` invocation by requested path; `fetchedFiles` records
every canonical file successfully read. -/
structure EsbuildState where
  fileCache : List (String × String)
  fetchCalls : List String
  fetchedFiles : List String
deriving DecidableEq

/-- The empty initial state of a fresh `EsbuildRunner`. -/
def initialEsbuildState : EsbuildState :=
  { fileCache := [], fetchCalls := [], fetchedFiles := [] }

/-- Result of one `onLoad` invocation: file contents, or the structured
error diagnostic of lines 614-623 (text carried, location null). -/
inductive OnLoadResult where
  | contents (c : String)
  | errors (text : String)
deriving DecidableEq

/-- The `onLoad` hook of `EsbuildRunner.createVirtualFsPlugin`
(lines 592-624): answer from the file cache when present; otherwise fetch
through the source provider, populate the cache and return the contents; a
fetch failure is returned as a structured error diagnostic and nothing is
cached. -/
def onLoad (files : String → Option String) (baseUrl : String)
    (st : EsbuildState) (modulePath : String) : EsbuildState × OnLoadResult :=
  match lookupA st.fileCache modulePath with
  | some cached => (st, .contents cached)
  | none =>
    let st1 := { st with fetchCalls := st.fetchCalls ++ [modulePath] }
    match fetchSourceFile files modulePath baseUrl with
    | none => (st1, .errors "NotFound")
    | some (canon, contents) =>
      ({ st1 with fileCache := setA st1.fileCache modulePath contents,
                  fetchedFiles := st1.fetchedFiles ++ [canon] }, .contents contents)

/-- One engine-issued load during a build: run the hook and record whether a
structured error diagnostic was produced (any error aborts the build at
lines 668-671). -/
def esbLoadStep (files : String → Option String) (baseUrl : String)
    (acc : EsbuildState × Bool) (p : String) : EsbuildState × Bool :=
  match onLoad files baseUrl acc.1 p with
  | (s1, OnLoadResult.contents _) => (s1, acc.2)
  | (s1, OnLoadResult.errors _) => (s1, false)

/-- The load phase of one `esbuild.build` invocation: the engine (external
code, deterministic for unchanged inputs) issues `onLoad` for the sequence
`paths` of virtual module paths it resolves; the Boolean is true exactly
when no load produced an error diagnostic. -/
def esbuildBuildLoads (files : String → Option String) (baseUrl : String)
    (st : EsbuildState) (paths : List String) : EsbuildState × Bool :=
  paths.foldl (esbLoadStep files baseUrl) (st, true)

/-- The cache-relevant behavior of `EsbuildRunner.compile` (lines 632-685):
optionally clear the file cache (lines 647-649), then run the engine's load
phase; the build succeeds only when no load diagnostic was an error. -/
def esbuildCompile (files : String → Option String) (baseUrl : String)
    (st : EsbuildState) (paths : List String) (clearCache : Bool) :
    EsbuildState × Bool :=
  let st1 := if clearCache then { st with fileCache := [] } else st
  esbuildBuildLoads files baseUrl st1 paths

/- ## Helper lemmas -/

/-- A specifier already in the transformed-module cache is answered from the
cache: no fetch, no state change (lines 94-96). -/
theorem load_cached (env : SwcEnv) (st : SwcState) (p b t : String)
    (h : lookupA st.transformedFiles p = some t) :
    loadAndTransformFile env st p b = (st, some t) := by
  simp [loadAndTransformFile, h]

/-- A dependency-loop step on a cached specifier leaves the state unchanged. -/
theorem depStep_cached (env : SwcEnv) (b : String) (st : SwcState) (imp t : String)
    (h : lookupA st.transformedFiles imp = some t) :
    depStep env b st imp = st := by
  simp [depStep, load_cached env st imp b t h]

/-- Folding the dependency loop over specifiers that are all cached leaves
the state unchanged. -/
theorem foldl_depStep_cached (env : SwcEnv) (b : String) (l : List String) :
    ∀ st : SwcState, (∀ i ∈ l, (lookupA st.transformedFiles i).isSome = true) →
      l.foldl (depStep env b) st = st := by
  induction l with
  | nil => intro st _; rfl
  | cons x xs ih =>
    intro st h
    have hx := h x (by simp)
    rcases hget : lookupA st.transformedFiles x with _ | t
    · rw [hget] at hx; simp at hx
    · have hstep := depStep_cached env b st x t hget
      simp only [List.foldl_cons, hstep]
      exact ih st (fun i hi => h i (by simp [hi]))

/-- The dependency walk is a no-op when every discovered specifier is
cached. -/
theorem transformDependencies_all_cached (env : SwcEnv) (st : SwcState) (code b : String)
    (h : ∀ i ∈ extractImports code, (lookupA st.transformedFiles i).isSome = true) :
    transformDependencies env st code b = st :=
  foldl_depStep_cached env b (extractImports code) st h

/-- A `@/`-rooted specifier is never on the external allowlist. -/
theorem alias_not_external (s : String) (h : strStarts s "@/" = true) :
    isExternal s = false := by
  have hp : "@/".toList <+: s.toList := by
    rw [strStarts, List.isPrefixOf_iff_prefix] at h; exact h
  obtain ⟨t, ht⟩ := hp
  rcases s with ⟨cs⟩
  simp only [String.toList] at ht
  have hcs : cs = '@' :: '/' :: t := by rw [← ht]; rfl
  subst hcs
  rfl

/-- The module-registration section contributes four lines per module. -/
theorem modulesSection_length (mm : List (String × String)) :
    (modulesSection mm).length = 4 * mm.length := by
  induction mm with
  | nil => rfl
  | cons pc rest ih =>
    simp [modulesSection, moduleLines] at ih ⊢
    omega

/-- A compile aborts exactly when loading and transforming the entry point
fails (the only `throw` reaching `compile`'s catch block). -/
theorem swcCompile_none_iff (env : SwcEnv) (st : SwcState) (e b : String) (cc : Bool) :
    (swcCompile env st e b cc).2 = none ↔
      (loadAndTransformFile env (if cc then clearedCaches st else st) e b).2 = none := by
  unfold swcCompile clearedCaches
  rcases h : loadAndTransformFile env
      (if cc then { st with transformedFiles := [], fileCache := [] } else st) e b
    with ⟨st1, t?⟩
  cases t? <;> simp [h]

/-- Updating one key keeps every present key present. -/
theorem isSome_lookupA_setA_of {α : Type} (m : List (String × α)) (k2 : String) (v : α)
    (k : String) (h : (lookupA m k).isSome = true) :
    (lookupA (setA m k2 v) k).isSome = true := by
  induction m with
  | nil => simp [lookupA] at h
  | cons kv rest ih =>
    rcases kv with ⟨k1, v1⟩
    cases h12 : k1 == k2 <;> cases h1k : k1 == k <;>
        simp [setA, lookupA, h12, h1k] at h ⊢ <;>
      first
        | exact ih h
        | exact h

/-- Updating a key makes it present. -/
theorem isSome_lookupA_setA_self {α : Type} (m : List (String × α)) (k : String) (v : α) :
    (lookupA (setA m k v) k).isSome = true := by
  induction m with
  | nil => simp [setA, lookupA]
  | cons kv rest ih =>
    rcases kv with ⟨k1, v1⟩
    cases h1k : k1 == k
    · simp [setA, lookupA, h1k]
      exact ih
    · simp [setA, lookupA, h1k]

/-- A virtual path already in the file cache is answered from the cache by
the load hook: no fetch, no state change (lines 596-601). -/
theorem esb_onLoad_cached (files : String → Option String) (b : String)
    (st : EsbuildState) (p c : String) (h : lookupA st.fileCache p = some c) :
    onLoad files b st p = (st, OnLoadResult.contents c) := by
  simp [onLoad, h]

/-- The load hook never removes a cached path. -/
theorem esb_onLoad_cache_mono (files : String → Option String) (b : String)
    (st : EsbuildState) (p k : String)
    (h : (lookupA st.fileCache k).isSome = true) :
    (lookupA (onLoad files b st p).1.fileCache k).isSome = true := by
  unfold onLoad
  rcases hc : lookupA st.fileCache p with _ | c
  · rcases hf : fetchSourceFile files p b with _ | pair
    · simpa using h
    · rcases pair with ⟨canon, contents⟩
      simpa using isSome_lookupA_setA_of _ _ _ _ h
  · simpa using h

/-- A successful load leaves the requested path cached. -/
theorem esb_onLoad_success_cached (files : String → Option String) (b : String)
    (st : EsbuildState) (p : String) (s1 : EsbuildState) (c : String)
    (h : onLoad files b st p = (s1, OnLoadResult.contents c)) :
    (lookupA s1.fileCache p).isSome = true := by
  unfold onLoad at h
  rcases hc : lookupA st.fileCache p with _ | c0
  · rw [hc] at h
    rcases hf : fetchSourceFile files p b with _ | pair
    · rw [hf] at h; simp at h
    · rcases pair with ⟨canon, contents⟩
      rw [hf] at h
      simp only [Prod.mk.injEq] at h
      rw [← h.1]
      exact isSome_lookupA_setA_self _ _ _
  · rw [hc] at h
    simp only [Prod.mk.injEq] at h
    rw [← h.1, hc]
    rfl

/-- Once a load errored, the build's error flag stays false. -/
theorem esb_fold_false (files : String → Option String) (b : String) (l : List String) :
    ∀ st : EsbuildState, (l.foldl (esbLoadStep files b) (st, false)).2 = false := by
  induction l with
  | nil => intro st; rfl
  | cons p rest ih =>
    intro st
    simp only [List.foldl_cons]
    rcases hl : onLoad files b st p with ⟨s1, r⟩
    cases r <;> simp only [esbLoadStep, hl] <;> exact ih s1

/-- The load phase never removes a cached path. -/
theorem esb_fold_cache_mono (files : String → Option String) (b : String)
    (l : List String) :
    ∀ (acc : EsbuildState × Bool) (k : String),
      (lookupA acc.1.fileCache k).isSome = true →
      (lookupA (l.foldl (esbLoadStep files b) acc).1.fileCache k).isSome = true := by
  induction l with
  | nil => intro acc k h; exact h
  | cons p rest ih =>
    intro acc k h
    simp only [List.foldl_cons]
    apply ih
    rcases hl : onLoad files b acc.1 p with ⟨s1, r⟩
    have hm := esb_onLoad_cache_mono files b acc.1 p k h
    rw [hl] at hm
    cases r <;> simp only [esbLoadStep, hl] <;> exact hm

/-- When a build's load phase finishes with no error diagnostic, every path
the engine requested is in the file cache. -/
theorem esb_fold_success_cached (files : String → Option String) (b : String)
    (l : List String) :
    ∀ acc : EsbuildState × Bool,
      (l.foldl (esbLoadStep files b) acc).2 = true →
      ∀ p ∈ l, (lookupA (l.foldl (esbLoadStep files b) acc).1.fileCache p).isSome
        = true := by
  induction l with
  | nil => intro acc _ p hp; simp at hp
  | cons q rest ih =>
    intro acc hsucc p hp
    simp only [List.foldl_cons] at hsucc ⊢
    rcases List.mem_cons.mp hp with hq | hr
    · subst hq
      rcases hl : onLoad files b acc.1 p with ⟨s1, r⟩
      cases r with
      | contents c =>
        have hpc := esb_onLoad_success_cached files b acc.1 p s1 c hl
        have hmono := esb_fold_cache_mono files b rest (s1, acc.2) p hpc
        simpa only [esbLoadStep, hl] using hmono
      | errors t =>
        exfalso
        have hstep : esbLoadStep files b acc p = (s1, false) := by
          simp only [esbLoadStep, hl]
        rw [hstep] at hsucc
        rw [esb_fold_false files b rest s1] at hsucc
        exact Bool.false_ne_true hsucc
    · exact ih (esbLoadStep files b acc q) hsucc p hr

/-- A load phase over paths that are all cached changes nothing and
succeeds. -/
theorem esb_fold_all_cached (files : String → Option String) (b : String)
    (l : List String) :
    ∀ st : EsbuildState, (∀ p ∈ l, (lookupA st.fileCache p).isSome = true) →
      l.foldl (esbLoadStep files b) (st, true) = (st, true) := by
  induction l with
  | nil => intro st _; rfl
  | cons q rest ih =>
    intro st h
    have hq := h q (by simp)
    rcases hc : lookupA st.fileCache q with _ | c
    · rw [hc] at hq; simp at hq
    · have hstep : esbLoadStep files b (st, true) q = (st, true) := by
        simp only [esbLoadStep, esb_onLoad_cached files b st q c hc]
      simp only [List.foldl_cons, hstep]
      exact ih st (fun p hp => h p (by simp [hp]))

/-- A successful bundling compile caches everything it loaded, so an
immediate rerun over the same engine-requested paths with `clearCache=false`
performs zero additional fetches and succeeds with an unchanged state. -/
theorem esbuildCompile_success_rerun (files : String → Option String) (b : String)
    (st0 : EsbuildState) (paths : List String) (cc : Bool)
    (h : (esbuildCompile files b st0 paths cc).2 = true) :
    esbuildCompile files b (esbuildCompile files b st0 paths cc).1 paths false
      = ((esbuildCompile files b st0 paths cc).1, true) := by
  unfold esbuildCompile esbuildBuildLoads at h ⊢
  simp only [Bool.false_eq_true, if_false]
  exact esb_fold_all_cached files b paths _
    (esb_fold_success_cached files b paths _ h)

/- ## Claim theorems -/

/-- C1: on both backends, `compileAndRun` grants the iframe exactly the three
sandbox capabilities `allow-scripts`, `allow-popups` and `allow-forms`, and
`allow-same-origin` is never granted alongside script execution. -/
theorem c1_sandbox_capabilities :
    swcSandbox = ["allow-scripts", "allow-popups", "allow-forms"] ∧
    esbuildSandbox = ["allow-scripts", "allow-popups", "allow-forms"] ∧
    swcSandbox.contains "allow-same-origin" = false ∧
    esbuildSandbox.contains "allow-same-origin" = false ∧
    (swcSandbox.contains "allow-scripts" && swcSandbox.contains "allow-same-origin") = false ∧
    (esbuildSandbox.contains "allow-scripts" && esbuildSandbox.contains "allow-same-origin")
      = false := by
  decide

/-- C2: the claim (and the source's own doc comments, lines 89-91, 217-219,
261) promise a recursive transitive closure of the dependency walk, but
`transformDependencies` only iterates over the entry's direct alias imports
and never recurses into a dependency's own imports: with entry importing
`@/a` and `@/a` importing `@/b`, the specifier `@/b` is discovered in `@/a`'s
cached code yet is never fetched, and `/src/b.js` is absent from the returned
module map. -/
theorem c2_transitive_closure_missing :
    (swcCompile envC2 initialSwcState "@/entry" "/src" false).1.fetchCalls
      = ["@/entry", "@/a"] ∧
    lookupA (swcCompile envC2 initialSwcState "@/entry" "/src" false).1.transformedFiles
      "@/a" = some "import \x7b B \x7d from \x22@/b\x22" ∧
    extractImports "import \x7b B \x7d from \x22@/b\x22" = ["@/b"] ∧
    ((swcCompile envC2 initialSwcState "@/entry" "/src" false).2.map
      fun bld => keysA bld.moduleMap) = some ["/src/entry.js", "/src/a.js"] ∧
    ((swcCompile envC2 initialSwcState "@/entry" "/src" false).2.map
      fun bld => lookupA bld.moduleMap "/src/b.js") = some none := by
  decide

/-- C3: a fetch or transform failure on the entry file makes `compile` reject
(and a compile rejects only then), whereas a failure on a discovered
dependency is caught, recorded as a warning, and that dependency is skipped
without aborting the build (`/src/bad.js` absent, build still succeeds). -/
theorem c3_entry_fatal_dependency_skipped (env : SwcEnv) (st : SwcState)
    (e b : String) (cc : Bool) :
    ((swcCompile env st e b cc).2 = none ↔
      (loadAndTransformFile env (if cc then clearedCaches st else st) e b).2 = none) ∧
    (swcCompile envC3 initialSwcState "@/entry" "/src" false).2.isSome = true ∧
    (swcCompile envC3 initialSwcState "@/entry" "/src" false).1.warnings
      = ["Could not transform dependency @/bad"] ∧
    ((swcCompile envC3 initialSwcState "@/entry" "/src" false).2.map
      fun bld => lookupA bld.moduleMap "/src/bad.js") = some none := by
  exact ⟨swcCompile_none_iff env st e b cc, by decide, by decide, by decide⟩

/-- C3 witness: the general part instantiated on the concrete
dependency-failure scenario. -/
theorem c3_witness :
    ((swcCompile envC3 initialSwcState "@/entry" "/src" false).2 = none ↔
      (loadAndTransformFile envC3
        (if false then clearedCaches initialSwcState else initialSwcState)
        "@/entry" "/src").2 = none) ∧
    (swcCompile envC3 initialSwcState "@/entry" "/src" false).2.isSome = true ∧
    (swcCompile envC3 initialSwcState "@/entry" "/src" false).1.warnings
      = ["Could not transform dependency @/bad"] ∧
    ((swcCompile envC3 initialSwcState "@/entry" "/src" false).2.map
      fun bld => lookupA bld.moduleMap "/src/bad.js") = some none :=
  c3_entry_fatal_dependency_skipped envC3 initialSwcState "@/entry" "/src" false

/-- C4: in the emitted bundle, the entry factory is invoked exactly when all
four external preloads succeed; on success the invocation is sequenced after
every preload event; if any preload fails the entry factory is never invoked
and the failure is rendered into the iframe root element.  Structurally, the
emitted script places the preload-and-execute tail after the preamble and the
module registrations, with the `Promise.all` line (index 10 of the tail)
before the `__require__` invocation line (index 18 of the tail). -/
theorem c4_preloads_gate_entry (importOk : String → Bool) (entryOk : Bool)
    (ek : String) (mm : List (String × String)) :
    (BundleEvent.invokedEntry ek ∈ runEmittedBundle importOk entryOk ek ↔
      externalsListForBundle.all importOk = true) ∧
    (externalsListForBundle.all importOk = true →
      runEmittedBundle importOk entryOk ek
        = externalsListForBundle.map BundleEvent.preloaded
            ++ (if entryOk then [BundleEvent.invokedEntry ek]
                else [BundleEvent.invokedEntry ek, BundleEvent.renderedError execErrorHtml])) ∧
    (externalsListForBundle.all importOk = false →
      BundleEvent.invokedEntry ek ∉ runEmittedBundle importOk entryOk ek ∧
        BundleEvent.renderedError preloadErrorHtml ∈ runEmittedBundle importOk entryOk ek) ∧
    (bundledCodeLines mm ek).drop (13 + 4 * mm.length) = bundleSuffixLines ek ∧
    (bundleSuffixLines ek)[10]? = some "Promise.all(externalPackages.map(pkg =>" ∧
    (bundleSuffixLines ek)[18]? = some ("    __require__(\x27" ++ ek ++ "\x27);") := by
  refine ⟨?_, ?_, ?_, ?_, rfl, rfl⟩
  · cases hall : externalsListForBundle.all importOk <;>
      cases entryOk <;> simp [runEmittedBundle, hall]
  · intro hall; simp [runEmittedBundle, hall]
  · intro hall
    constructor
    · simp [runEmittedBundle, hall]
    · simp [runEmittedBundle, hall]
  · have h1 : (bundlePrefixLines ++ modulesSection mm).length = 13 + 4 * mm.length := by
      simp [bundlePrefixLines, modulesSection_length mm]
      omega
    have h2 : bundledCodeLines mm ek
        = (bundlePrefixLines ++ modulesSection mm) ++ bundleSuffixLines ek := by
      rw [bundledCodeLines, List.append_assoc]
    rw [h2, ← h1, List.drop_left]

/-- C4 witness: with every preload succeeding, the entry is invoked. -/
theorem c4_witness :
    BundleEvent.invokedEntry "/src/entry.js"
      ∈ runEmittedBundle (fun _ => true) true "/src/entry.js" :=
  (c4_preloads_gate_entry (fun _ => true) true "/src/entry.js" []).1.mpr rfl

/-- C5 counterexample: the claim says the resolved alias path carries the
first candidate extension for which a source exists; with only
`/src/components/ui/button.tsx` existing, the spec-side resolver picks
`.tsx`, but the code's resolver unconditionally appends `.js` — a path at
which no source exists. -/
theorem c5_counterexample :
    resolveAliasPath "@/components/ui/button" = "/src/components/ui/button.js" ∧
    specResolveAliasPath filesC5 "@/components/ui/button" "/src"
      = some "/src/components/ui/button.tsx" ∧
    ("/src/components/ui/button.js" == "/src/components/ui/button.tsx") = false ∧
    filesC5 "/src/components/ui/button.js" = none := by
  decide

/-- C5 amended: alias resolution is importer-independent, but the transpile
backend rewrites `@/rest` to `/src/rest` with `.js` appended unless the path
already ends in `.js` or `.jsx`, never consulting which sources exist, while
the bundling backend's resolve hook returns the alias specifier unchanged in
the virtual namespace (extension inference being deferred to the source
provider at load time). -/
theorem c5_alias_resolution_amended (s i1 i2 ns f1 f2 code : String)
    (h : strStarts s "@/" = true) :
    swcResolveFrom s i1 = swcResolveFrom s i2 ∧
    resolveAliasPath s
      = (if !(strEnds ("/src/" ++ strDrop s 2) ".js")
            && !(strEnds ("/src/" ++ strDrop s 2) ".jsx")
         then "/src/" ++ strDrop s 2 ++ ".js" else "/src/" ++ strDrop s 2) ∧
    onResolve s ns i1 = ResolveResult.virt s ∧
    onResolve s ns i2 = onResolve s ns i1 ∧
    resolveImports code f1 = resolveImports code f2 := by
  have hx := alias_not_external s h
  refine ⟨rfl, ?_, ?_, ?_, rfl⟩
  · simp [resolveAliasPath, h]
  · simp [onResolve, hx, h]
  · simp [onResolve, hx, h]

/-- C5 witness: the amended statement on the claim's example specifier and
two distinct importers. -/
theorem c5_witness :
    swcResolveFrom "@/components/ui/button" "/src/entry.js"
      = swcResolveFrom "@/components/ui/button" "/src/lib/utils.js" :=
  (c5_alias_resolution_amended "@/components/ui/button" "/src/entry.js"
    "/src/lib/utils.js" "virtual" "/src/f1.js" "/src/f2.js" "let x = 1" rfl).1

/-- C6 counterexample: a relative specifier whose `..` segments collapse past
the root is not rejected: the spec-side resolver fails on
`../../../x` from `/src/components/a.js`, but the code's resolve hook
silently clamps at the root and resolves it to the virtual path `/x`. -/
theorem c6_counterexample :
    resolveRelative "/src/components/a.js" "../../../x" = "/x" ∧
    specResolveRelative "/src/components/a.js" "../../../x" = none ∧
    onResolve "../../../x" "virtual" "/src/components/a.js" = ResolveResult.virt "/x" := by
  decide

/-- C6 amended: relative specifiers resolve directory-relative to the
importer (`./x` from `/src/components/a.js` gives `/src/components/x`, `../x`
gives `/src/x`, with the extension appended by the source provider as the
first existing candidate); each `..` removes the nearest preceding segment;
`..` segments collapsing past the root are silently discarded (the path
clamps at the root) rather than rejected. -/
theorem c6_relative_resolution_amended (parts : List String) :
    onResolve "./x" "virtual" "/src/components/a.js"
      = ResolveResult.virt "/src/components/x" ∧
    onResolve "../x" "virtual" "/src/components/a.js" = ResolveResult.virt "/src/x" ∧
    fetchSourceFile filesC6 "/src/components/x" "/src"
      = some ("/src/components/x.tsx", "export const x = 1") ∧
    normSegs (parts ++ [".."]) = (normSegs parts).dropLast ∧
    resolveRelative "/src/components/a.js" "../../../x" = "/x" := by
  refine ⟨by decide, by decide, by decide, ?_, by decide⟩
  simp [normSegs, List.foldl_append, normStep]

/-- C7: `export default <expr>` rewrites to an assignment onto the module's
default export slot, which the emitted registry resolves as
`require(path).default`; `import A, \x7b B as C \x7d from "@/x"` rewrites to
statements binding `A` to the required module object of the resolved
canonical path `/src/x.js` and `C` to its field `B`. -/
theorem c7_rewrite_correctness (fields : List (String × JVal)) (bv : JVal)
    (req : String → JVal) (hB : lookupA fields "B" = some bv) :
    resolveImports c7ExportInput "/src/f.js"
      = "exports.default = function Foo()\x7b\x7d" ∧
    requireSem [("/src/x.js", resolveImports c7ExportInput "/src/x.js")] req []
      "/src/x.js"
      = some ([("/src/x.js", JVal.obj [("default", JVal.code "function Foo()\x7b\x7d")])],
          JVal.obj [("default", JVal.code "function Foo()\x7b\x7d")]) ∧
    getField (JVal.obj [("default", JVal.code "function Foo()\x7b\x7d")]) "default"
      = some (JVal.code "function Foo()\x7b\x7d") ∧
    resolveImports c7ImportInput "/src/entry.js"
      = "const A = require(\x22/src/x.js\x22);\nconst \x7b  B: C  \x7d = A" ∧
    parseStmts (resolveImports c7ImportInput "/src/entry.js")
      = some [JStmt.constRequire "A" "/src/x.js", JStmt.constDestr [("B", "C")] "A"] ∧
    evalStmts (fun q => if q == "/src/x.js" then JVal.obj fields else JVal.code "unused")
        [JStmt.constRequire "A" "/src/x.js", JStmt.constDestr [("B", "C")] "A"]
        { locals := [], exports := [] }
      = some { locals := [("A", JVal.obj fields), ("C", bv)], exports := [] } := by
  refine ⟨rfl, rfl, rfl, rfl, rfl, ?_⟩
  simp [evalStmts, evalStmt, getField, lookupA, setA, hB]

/-- C7 witness: the binding semantics applied to a concrete module object. -/
theorem c7_witness :
    evalStmts
        (fun q => if q == "/src/x.js" then JVal.obj [("B", JVal.code "1")]
                  else JVal.code "unused")
        [JStmt.constRequire "A" "/src/x.js", JStmt.constDestr [("B", "C")] "A"]
        { locals := [], exports := [] }
      = some { locals := [("A", JVal.obj [("B", JVal.code "1")]), ("C", JVal.code "1")],
               exports := [] } :=
  (c7_rewrite_correctness [("B", JVal.code "1")] (JVal.code "1")
    (fun _ => JVal.code "unused") rfl).2.2.2.2.2

/-- C8 counterexample: the caches are keyed by specifier, not CanonicalPath:
`@/x` and `@/x.js` both resolve to the canonical `/src/x.js`, yet the
underlying file is fetched twice and two transformed-module cache entries
exist for the one canonical path. -/
theorem c8_counterexample :
    moduleKey "@/x" = "/src/x.js" ∧
    moduleKey "@/x.js" = "/src/x.js" ∧
    resolveAliasPath "@/x" = resolveAliasPath "@/x.js" ∧
    countOcc (swcCompile envC8 initialSwcState "@/entry" "/src" false).1.fetchedFiles
      "/src/x.js" = 2 ∧
    keysA (swcCompile envC8 initialSwcState "@/entry" "/src" false).1.transformedFiles
      = ["@/entry", "@/x", "@/x.js"] := by
  decide

/-- C8 amended: deduplication is per specifier — a specifier already in the
transformed-module cache is answered from the cache with no further fetch —
while two distinct specifiers resolving to the same CanonicalPath each get
their own cache entry and fetch; the final module map still holds exactly one
entry for the shared CanonicalPath. -/
theorem c8_dedup_amended (env : SwcEnv) (st : SwcState) (p b t : String)
    (h : lookupA st.transformedFiles p = some t) :
    loadAndTransformFile env st p b = (st, some t) ∧
    ((swcCompile envC8 initialSwcState "@/entry" "/src" false).2.map
      fun bld => keysA bld.moduleMap) = some ["/src/entry.js", "/src/x.js"] ∧
    ((swcCompile envC8 initialSwcState "@/entry" "/src" false).2.map
      fun bld => countOcc (keysA bld.moduleMap) "/src/x.js") = some 1 := by
  exact ⟨load_cached env st p b t h, by decide, by decide⟩

/-- C8 witness: the per-specifier cache hit on a concrete state. -/
theorem c8_witness :
    loadAndTransformFile envC8 (SwcState.mk [("@/x", "c")] [] [] [] []) "@/x" "/src"
      = (SwcState.mk [("@/x", "c")] [] [] [] [], some "c") :=
  (c8_dedup_amended envC8 (SwcState.mk [("@/x", "c")] [] [] [] []) "@/x" "/src" "c" rfl).1

/-- C9 counterexample: the first compile succeeds while its dependency
`@/missing` fails to fetch and is skipped; since failures are never cached,
the second compile with `clearCache=false` and unchanged inputs performs one
additional SourceProvider fetch for `@/missing`, refuting the zero-fetch
claim. -/
theorem c9_counterexample :
    (swcCompile envC9 initialSwcState "@/entry" "/src" false).2.isSome = true ∧
    st1C9.fetchCalls = ["@/entry", "@/missing"] ∧
    (swcCompile envC9 st1C9 "@/entry" "/src" false).1.fetchCalls
      = ["@/entry", "@/missing", "@/missing"] := by
  decide

/-- C9 amended: on either backend, a second compile with `clearCache=false`
and unchanged inputs performs zero additional fetches provided the first
compile fetched everything it needed.  On the bundling backend a successful
build has loaded and cached every engine-requested virtual path (a load
failure aborts the build), so a rerun changes nothing and fetches nothing.
On the transpile-only backend this additionally requires the entry and every
dependency discovered from it to be cached, because a failed dependency is
skipped without caching and is re-fetched on every compile.  On both
backends `clearCache=true` evicts the instance caches before compiling
(SourceRecord and TransformedModule for `SwcRunner`, the SourceRecord file
cache for `EsbuildRunner`), and absent the flag the caches persist and are
used as-is. -/
theorem c9_cache_amended (env : SwcEnv) (st : SwcState) (e b code : String)
    (efiles : String → Option String) (eb : String) (paths : List String)
    (est0 : EsbuildState) (ecc : Bool)
    (hentry : lookupA st.transformedFiles e = some code)
    (hdeps : ∀ i ∈ extractImports code, (lookupA st.transformedFiles i).isSome = true) :
    (swcCompile env st e b false).1.fetchCalls = st.fetchCalls ∧
    (swcCompile env st e b false).1.transformedFiles = st.transformedFiles ∧
    (swcCompile env st e b false).2.isSome = true ∧
    (∀ st0 : SwcState, swcCompile env st0 e b true
      = swcCompile env (clearedCaches st0) e b false) ∧
    (∀ (est : EsbuildState) (p c : String), lookupA est.fileCache p = some c →
      onLoad efiles eb est p = (est, OnLoadResult.contents c)) ∧
    ((esbuildCompile efiles eb est0 paths ecc).2 = true →
      esbuildCompile efiles eb (esbuildCompile efiles eb est0 paths ecc).1 paths false
        = ((esbuildCompile efiles eb est0 paths ecc).1, true)) ∧
    (∀ est : EsbuildState, esbuildCompile efiles eb est paths true
      = esbuildCompile efiles eb { est with fileCache := [] } paths false) := by
  have hload := load_cached env st e b code hentry
  have hdep := transformDependencies_all_cached env st code b hdeps
  refine ⟨?_, ?_, ?_, fun st0 => rfl,
    fun est p c h => esb_onLoad_cached efiles eb est p c h,
    esbuildCompile_success_rerun efiles eb est0 paths ecc,
    fun est => rfl⟩
  · simp [swcCompile, hload, hdep]
  · simp [swcCompile, hload, hdep]
  · simp [swcCompile, hload, hdep]

/-- C9 witness: a state produced by a successful first compile with no
dependencies yields a fetch-free second compile, on both backends. -/
theorem c9_witness :
    (swcCompile envC9b stC9b "@/entry" "/src" false).1.fetchCalls = stC9b.fetchCalls ∧
    (swcCompile envC9b stC9b "@/entry" "/src" false).1.transformedFiles
      = stC9b.transformedFiles ∧
    (swcCompile envC9b stC9b "@/entry" "/src" false).2.isSome = true ∧
    (∀ st0 : SwcState, swcCompile envC9b st0 "@/entry" "/src" true
      = swcCompile envC9b (clearedCaches st0) "@/entry" "/src" false) ∧
    esbuildCompile filesC9b "/src"
        (esbuildCompile filesC9b "/src" initialEsbuildState ["@/entry"] false).1
        ["@/entry"] false
      = ((esbuildCompile filesC9b "/src" initialEsbuildState ["@/entry"] false).1,
         true) := by
  have hmain := c9_cache_amended envC9b stC9b "@/entry" "/src" "export const A = 1"
    filesC9b "/src" ["@/entry"] initialEsbuildState false (by decide) (by decide)
  exact ⟨hmain.1, hmain.2.1, hmain.2.2.1, hmain.2.2.2.1,
    hmain.2.2.2.2.2.1 (by decide)⟩

/-- C10: the initialization flag is module-scoped, not per-instance: after a
successful `initialize()` through any instance, `initialize()` on any other
instance of the same class returns immediately without loading the engine,
and the not-initialized compile guard passes for that other instance, for
both runner classes. -/
theorem c10_processwide_init (i j : Nat) (lo1 lo2 : Bool) (g ge : EngineGlobal)
    (hs : (swcInit i lo1 g).2.2 = true) (he : (esbuildInit i lo1 ge).2.2 = true) :
    swcInit j lo2 (swcInit i lo1 g).1 = ((swcInit i lo1 g).1, false, true) ∧
    compileGuardOk j (swcInit i lo1 g).1 = true ∧
    esbuildInit j lo2 (esbuildInit i lo1 ge).1 = ((esbuildInit i lo1 ge).1, false, true) ∧
    compileGuardOk j (esbuildInit i lo1 ge).1 = true := by
  rcases g with ⟨gr⟩
  rcases ge with ⟨ger⟩
  cases gr <;> cases ger <;> cases lo1 <;> cases lo2 <;>
    simp_all [swcInit, esbuildInit, compileGuardOk]

/-- C10 witness: a fresh module state initialized through instance 0 and then
observed through instance 1. -/
theorem c10_witness :
    swcInit 1 false (swcInit 0 true ⟨false⟩).1 = ((swcInit 0 true ⟨false⟩).1, false, true) ∧
    compileGuardOk 1 (swcInit 0 true ⟨false⟩).1 = true ∧
    esbuildInit 1 false (esbuildInit 0 true ⟨false⟩).1
      = ((esbuildInit 0 true ⟨false⟩).1, false, true) ∧
    compileGuardOk 1 (esbuildInit 0 true ⟨false⟩).1 = true :=
  c10_processwide_init 0 1 true false ⟨false⟩ ⟨false⟩ rfl rfl

end ReactWasm
